import Mathlib

/-!
Verification of the NWR_Bookings occupancy dashboard (`src/app.py`).

The program is a single-file streamlit/pandas dashboard:
  * `load_data` runs one SQL extraction query (joins, minute-offset date
    decoding, a WHERE row filter) and derives a `Total Guests` column;
  * a boolean mask filters the dataframe by arrival-date range, lodge set
    and status set;
  * KPIs and chart aggregates are computed from the filtered dataframe.

This file shallowly embeds that pipeline: dataframes become `List Rec`,
SQL tables become lists of records, dates become proleptic-Gregorian day
numbers (with explicit civil-date conversion mirroring `DATEADD` /
`CAST AS DATE`), and pandas aggregations become Lean functions over lists.
-/

namespace NWR

/-! ### Calendar arithmetic

`src/app.py` decodes dates with
`CAST(DATEADD(minute, B.arrival_minute, '1897-01-01') AS DATE)`:
the stored value is an integer number of minutes after midnight
1897-01-01; adding it to that epoch datetime and casting to DATE truncates
the time-of-day part.  We represent a calendar date both as a civil triple
`(year, month, day)` and as a day number (days elapsed since 0000-03-01 of
the proleptic Gregorian calendar), with the standard era-based conversion
algorithms (divisions are Nat floor divisions; all dates handled by the
program are far above year 0, so Nat arithmetic never underflows). -/

/-- Day number (days since 0000-03-01, proleptic Gregorian) of the civil
date `(y, m, d)`. -/
def daysFromCivil (y m d : Nat) : Nat :=
  let yAdj := if m ≤ 2 then y - 1 else y
  let era := yAdj / 400
  let yoe := yAdj % 400
  let mp := if 2 < m then m - 3 else m + 9
  let doy := (153 * mp + 2) / 5 + (d - 1)
  let doe := yoe * 365 + yoe / 4 - yoe / 100 + doy
  era * 146097 + doe

/-- Civil date `(year, month, day)` of a day number (inverse of
`daysFromCivil` on valid dates). -/
def civilFromDays (z : Nat) : Nat × Nat × Nat :=
  let era := z / 146097
  let doe := z % 146097
  let yoe := (doe - doe / 1460 + doe / 36524 - doe / 146096) / 365
  let y := yoe + era * 400
  let doy := doe - (365 * yoe + yoe / 4 - yoe / 100)
  let mp := (5 * doy + 2) / 153
  let d := doy - (153 * mp + 2) / 5 + 1
  let m := if mp < 10 then mp + 3 else mp - 9
  (if m ≤ 2 then y + 1 else y, m, d)

/-- Day number of the epoch `'1897-01-01'` used by the query's `DATEADD`. -/
def epochDay : Nat := daysFromCivil 1897 1 1

/-- `CAST(DATEADD(minute, mins, '1897-01-01') AS DATE)` from the query:
the epoch datetime measured in minutes is `epochDay * 1440`; `DATEADD`
adds the stored minute offset to it, and `CAST AS DATE` truncates the
result to whole days (floor division by 1440), which `civilFromDays`
renders as a calendar date. -/
def dateaddCastDate (mins : Nat) : Nat × Nat × Nat :=
  civilFromDays ((epochDay * 1440 + mins) / 1440)

/-- The day number underlying `dateaddCastDate` (used wherever the program
compares or groups decoded dates rather than displaying them). -/
def decodedDay (mins : Nat) : Nat :=
  (epochDay * 1440 + mins) / 1440

/-! ### The dataframe

One row of the dataframe returned by `load_data`.  Column order and names
follow the SELECT list of the query; `Lodge Name`, `Lodge Code`,
`Unit Type`, `Unit Number` and `Nationality` are nullable (the first four
because of the LEFT JOINs, nationality because the source column is), so
they are `Option String`.  Dates are stored as day numbers — the program
compares and groups them, it never re-reads their textual form.
`Total Guests` is the derived column `Total Adults + Total Children`
added at the end of `load_data`. -/
structure Rec where
  lodgeName : Option String
  lodgeCode : Option String
  bookingRef : String
  statusCode : String
  arrivalDate : Nat
  departureDate : Nat
  dateBooked : Nat
  totalAdults : Nat
  totalChildren : Nat
  unitType : Option String
  unitNumber : Option String
  nationality : Option String
  totalGuests : Nat
deriving DecidableEq, Repr

/-- A dataframe is an ordered sequence of rows. -/
abbrev Df := List Rec

/-! ### Filter engine

`src/app.py` lines 95-101: the sidebar produces a date range
`(start_date, end_date)`, a lodge multiselect `selected_lodges` and a
status multiselect `selected_status`; the mask is the conjunction of the
four comparisons and `filtered_df = df.loc[mask]`.  `Series.isin`
matches null against null (pandas `isin` treats NaN as equal to NaN), so
lodge membership is plain equality on `Option String`. -/

structure Selection where
  startDate : Nat
  endDate : Nat
  lodges : List (Option String)
  statuses : List String

/-- The boolean mask of lines 95-100, evaluated at one row. -/
def rowMask (s : Selection) (r : Rec) : Bool :=
  decide (s.startDate ≤ r.arrivalDate) && decide (r.arrivalDate ≤ s.endDate)
    && s.lodges.contains r.lodgeName && s.statuses.contains r.statusCode

/-- `filtered_df = df.loc[mask]` (line 101). -/
def filterDf (df : Df) (s : Selection) : Df :=
  df.filter (rowMask s)

/-! ### Widget defaults (lines 79-92)

`min_date`/`max_date` are the minimum and maximum arrival dates of the
loaded dataframe, and both multiselects default to every distinct value
of their column (`unique().tolist()`, which keeps nulls). -/

/-- `df['Arrival Date'].min()` (meaningful when `df` is nonempty). -/
def minArrival : Df → Nat
  | [] => 0
  | r :: rs => rs.foldl (fun acc x => min acc x.arrivalDate) r.arrivalDate

/-- `df['Arrival Date'].max()` (meaningful when `df` is nonempty). -/
def maxArrival : Df → Nat
  | [] => 0
  | r :: rs => rs.foldl (fun acc x => max acc x.arrivalDate) r.arrivalDate

/-- `df['Lodge Name'].unique().tolist()`: distinct lodge values in order
of first appearance, nulls included. -/
def lodgeList (df : Df) : List (Option String) :=
  (df.map (·.lodgeName)).dedup

/-- `df['Status Code'].unique().tolist()`. -/
def statusList (df : Df) : List String :=
  (df.map (·.statusCode)).dedup

/-- The selection the dashboard starts from: full date range of the data,
all lodges selected, all statuses selected. -/
def defaultSelection (df : Df) : Selection :=
  ⟨minArrival df, maxArrival df, lodgeList df, statusList df⟩

/-! ### KPIs (lines 111-114)

`total_bookings = filtered_df['Booking Ref'].nunique()` — the number of
distinct (non-null; the column is a String here) booking references.
`total_guests = filtered_df['Total Guests'].sum()`.
`avg_stay = (departure - arrival).dt.days.mean()` — pandas `mean` of an
empty series is NaN, the "not available" marker, modelled as `none`.
`top_nat = filtered_df['Nationality'].mode()[0] if not filtered_df.empty
else "N/A"` — `Series.mode()` drops nulls, keeps every value attaining
the maximal count, and returns them sorted ascending; `[0]` then picks
the first, and raises a KeyError when the mode series is empty.  We model
the computation as `Except` so the KeyError path is explicit. -/

/-- `filtered_df['Booking Ref'].nunique()`. -/
def total_bookings (df : Df) : Nat :=
  (df.map (·.bookingRef)).dedup.length

/-- `filtered_df['Total Guests'].sum()`. -/
def total_guests (df : Df) : Nat :=
  (df.map (·.totalGuests)).sum

/-- `(filtered_df['Departure Date'] - filtered_df['Arrival Date']).dt.days.mean()`;
`none` is pandas' NaN on an empty series. -/
def avg_stay (df : Df) : Option ℚ :=
  if df.isEmpty then none
  else some (((df.map (fun r => (r.departureDate : ℚ) - (r.arrivalDate : ℚ))).sum) / df.length)

/-- `Series.mode()` of the `Nationality` column: drop nulls, keep the
values of maximal multiplicity, sorted ascending (pandas returns the
modal values sorted). -/
def nationalityMode (df : Df) : List String :=
  let vs := df.filterMap (·.nationality)
  let uniq := vs.dedup
  let mx := (uniq.map (fun v => vs.count v)).foldr max 0
  (uniq.insertionSort (· ≤ ·)).filter (fun v => vs.count v == mx)

/-- `top_nat = filtered_df['Nationality'].mode()[0] if not filtered_df.empty else "N/A"`
(line 114); `.error` is the KeyError raised by `[0]` on an empty mode
series. -/
def top_nat (df : Df) : Except String String :=
  if df.isEmpty then .ok "N/A"
  else
    match nationalityMode df with
    | [] => .error "KeyError: 0"
    | v :: _ => .ok v

/-! ### Chart aggregates (lines 128-144) -/

/-- `Series.value_counts()` over a nullable string column: pairs
`(value, count)` for each distinct non-null value, sorted by count
descending. -/
def value_counts (vals : List (Option String)) : List (String × Nat) :=
  let vs := vals.filterMap id
  (vs.dedup.map (fun v => (v, vs.count v))).insertionSort (fun a b => b.2 ≤ a.2)

/-- `filtered_df['Lodge Name'].value_counts()` (line 128), the bar-chart
data. -/
def lodge_counts (df : Df) : List (String × Nat) :=
  value_counts (df.map (·.lodgeName))

/-- `filtered_df['Nationality'].value_counts().head(10)` (line 135), the
pie-chart data. -/
def nat_counts (df : Df) : List (String × Nat) :=
  (value_counts (df.map (·.nationality))).take 10

/-- `Arrival Date -> to_period('M')` (line 143): the year-month of a day
number, encoded as `year * 100 + month`.  The program's key is the string
`str(Period)` = `"YYYY-MM"`; for the four-digit years this dashboard
handles, lexicographic order on those strings coincides with numeric
order on `year * 100 + month`, which is what we use. -/
def monthKey (day : Nat) : Nat :=
  (civilFromDays day).1 * 100 + (civilFromDays day).2.1

/-- The distinct month keys of `filtered_df`, sorted ascending —
`groupby('Month')` sorts its group keys (`sort=True` is the pandas
default). -/
def trendMonths (df : Df) : List Nat :=
  ((df.map (fun r => monthKey r.arrivalDate)).dedup).insertionSort (· ≤ ·)

/-- `trend_data = filtered_df.groupby('Month')['Booking Ref'].count()`
(line 144): for each month key in sorted order, the number of rows of
that month (`count()` counts the non-null `Booking Ref` cells of the
group; the column is a String here, so this is the group's row count). -/
def trend_data (df : Df) : List (Nat × Nat) :=
  (trendMonths df).map (fun k => (k, df.countP (fun r => monthKey r.arrivalDate == k)))

/-! ### The extraction query (lines 25-54)

Relational embedding of the five joined tables, keeping exactly the
columns the query touches.  Foreign keys are nullable where a LEFT JOIN
(or the data model) allows the chain to be broken.  SQL equality with a
NULL operand is UNKNOWN, never true: `nullEq` therefore matches only two
non-null equal values, and a WHERE predicate over a NULL column rejects
the row. -/

structure Bkmain where
  booking_reference : String
  booking_status : String
  arrival_minute : Nat
  departure_minute : Nat
  creation_minute : Nat
  adult_category_1_quantity : Nat
  adult_category_2_quantity : Nat
  child_category_1_quantity : Nat
  child_category_2_quantity : Nat
  guest_clmain : Nat
  id_bkunit : Option Nat
deriving DecidableEq, Repr

structure Clmain where
  client_clmain : Nat
  client_nationality : Option String
  record_marked_deleted : Nat
deriving DecidableEq, Repr

structure Bkunit where
  booking_unit_bkunit : Nat
  unit_name : Option String
  unit_type_bkunittp : Option Nat
deriving DecidableEq, Repr

structure Bkunittp where
  id_bkunittp : Nat
  unit_type_description : Option String
  location_department_bkunittp : Option Nat
deriving DecidableEq, Repr

structure Spdept where
  department_spdept : Nat
  department_description : Option String
  department_code : Option String
  record_marked_deleted : Nat
deriving DecidableEq, Repr

structure DB where
  bkmain : List Bkmain
  clmain : List Clmain
  bkunit : List Bkunit
  bkunittp : List Bkunittp
  spdept : List Spdept

/-- SQL `=` under three-valued logic: true only when both operands are
non-null and equal. -/
def nullEq (a b : Option Nat) : Bool :=
  match a, b with
  | some x, some y => x == y
  | _, _ => false

/-- `LEFT JOIN tbl ON k = key(row)`: the matching rows, or a single NULL
row when none matches (a NULL `k` matches nothing). -/
def leftJoin1 {β : Type} (k : Option Nat) (key : β → Option Nat) (tbl : List β) :
    List (Option β) :=
  match tbl.filter (fun b => nullEq k (key b)) with
  | [] => [none]
  | ms => ms.map some

/-- The SELECT list: assemble one output row from the joined records
(`BU?`, `BUT?`, `D?` are NULL-extended by the LEFT JOINs). -/
def selectRow (B : Bkmain) (C : Clmain) (BU? : Option Bkunit)
    (BUT? : Option Bkunittp) (D? : Option Spdept) : Rec :=
  let adults := B.adult_category_1_quantity + B.adult_category_2_quantity
  let children := B.child_category_1_quantity + B.child_category_2_quantity
  { lodgeName := D?.bind (·.department_description)
    lodgeCode := D?.bind (·.department_code)
    bookingRef := B.booking_reference
    statusCode := B.booking_status
    arrivalDate := decodedDay B.arrival_minute
    departureDate := decodedDay B.departure_minute
    dateBooked := decodedDay B.creation_minute
    totalAdults := adults
    totalChildren := children
    unitType := BUT?.bind (·.unit_type_description)
    unitNumber := BU?.bind (·.unit_name)
    nationality := C.client_nationality
    totalGuests := adults + children }

/-- The WHERE clause (lines 49-53): decoded arrival date on/after
'2023-01-01', guest not soft-deleted, department not soft-deleted.
`D.record_marked_deleted = 0` over a NULL-extended department row is
UNKNOWN in SQL, hence `false` here. -/
def whereClause (B : Bkmain) (C : Clmain) (D? : Option Spdept) : Bool :=
  decide (daysFromCivil 2023 1 1 ≤ decodedDay B.arrival_minute)
    && (C.record_marked_deleted == 0)
    && (match D? with
        | some D => D.record_marked_deleted == 0
        | none => false)

/-- The rows the query produces for one `bkmain` record: INNER JOIN to
`clmain`, LEFT JOIN chain to `bkunit` → `bkunittp` → `spdept`, then the
WHERE filter and the SELECT list. -/
def perBooking (db : DB) (B : Bkmain) : List Rec :=
  (db.clmain.filter (fun C => nullEq (some B.guest_clmain) (some C.client_clmain))).flatMap
    (fun C =>
      (leftJoin1 B.id_bkunit (fun BU => some BU.booking_unit_bkunit) db.bkunit).flatMap
        (fun BU? =>
          (leftJoin1 (BU?.bind (·.unit_type_bkunittp)) (fun BUT => some BUT.id_bkunittp)
              db.bkunittp).flatMap
            (fun BUT? =>
              (leftJoin1 (BUT?.bind (·.location_department_bkunittp))
                  (fun D => some D.department_spdept) db.spdept).filterMap
                (fun D? =>
                  if whereClause B C D? then some (selectRow B C BU? BUT? D?)
                  else none))))

/-- The full result set of the extraction query (row order: nested-loop
order over the base table). -/
def queryRows (db : DB) : List Rec :=
  db.bkmain.flatMap (perBooking db)

/-! ### Resource events of `load_data` (lines 56-66)

`load_data` runs `conn = pyodbc.connect(conn_str)` and then
`pd.read_sql(query, conn)` followed by the date/total-guest derivations;
no `with` block, no `try/finally`, and no call to `conn.close()` appears
anywhere in the file.  We record the connection-relevant events of every
control path after a successful `connect`, parameterised by whether the
query or the post-processing raises. -/

inductive LoadEvent
  | connOpen
  | runQuery
  | connClose
  | raiseExc
  | retDf
deriving DecidableEq, Repr

/-- Event trace of one `load_data` call whose `connect` succeeded:
open, query (raising or not), then derive columns (raising or not) and
return.  No path emits `connClose`, because the source never closes the
connection. -/
def loadEvents (queryRaises deriveRaises : Bool) : List LoadEvent :=
  LoadEvent.connOpen :: LoadEvent.runQuery ::
    (if queryRaises then [LoadEvent.raiseExc]
     else if deriveRaises then [LoadEvent.raiseExc]
     else [LoadEvent.retDf])

/-! ## Claims -/

/-- Membership in the filtered dataframe unfolded to the four predicates. -/
theorem mem_filterDf {df : Df} {s : Selection} {r : Rec} :
    r ∈ filterDf df s ↔
      r ∈ df ∧ s.startDate ≤ r.arrivalDate ∧ r.arrivalDate ≤ s.endDate ∧
        r.lodgeName ∈ s.lodges ∧ r.statusCode ∈ s.statuses := by
  simp [filterDf, List.mem_filter, rowMask, Bool.and_eq_true, decide_eq_true_iff,
    and_assoc]

/-- C1: a record of `D` is in `filter(D, S)` iff its arrival date lies in
`[S.start, S.end]` (both ends inclusive), its lodge name is among the
selected lodges and its status code is among the selected statuses
(conjunction of all three predicates); in particular a record whose
arrival date equals `S.end` (with the other predicates satisfied and
`start ≤ end`) is included, a record arriving one day after `S.end` is
excluded, and an empty selected lodge-set or status-set yields an empty
filtered result. -/
theorem filter_semantics :
    (∀ (df : Df) (s : Selection) (r : Rec),
        r ∈ filterDf df s ↔
          r ∈ df ∧ s.startDate ≤ r.arrivalDate ∧ r.arrivalDate ≤ s.endDate ∧
            r.lodgeName ∈ s.lodges ∧ r.statusCode ∈ s.statuses)
    ∧ (∀ (df : Df) (s : Selection) (r : Rec),
        r ∈ df → r.arrivalDate = s.endDate → s.startDate ≤ s.endDate →
          r.lodgeName ∈ s.lodges → r.statusCode ∈ s.statuses → r ∈ filterDf df s)
    ∧ (∀ (df : Df) (s : Selection) (r : Rec),
        r.arrivalDate = s.endDate + 1 → r ∉ filterDf df s)
    ∧ (∀ (df : Df) (s : Selection), s.lodges = [] → filterDf df s = [])
    ∧ (∀ (df : Df) (s : Selection), s.statuses = [] → filterDf df s = []) := by
  refine ⟨fun df s r => mem_filterDf, ?_, ?_, ?_, ?_⟩
  · intro df s r hmem harr hse hl hst
    exact mem_filterDf.mpr ⟨hmem, harr ▸ hse, le_of_eq harr, hl, hst⟩
  · intro df s r harr hmem
    have h := (mem_filterDf.mp hmem).2.2.1
    omega
  · intro df s hl
    rw [filterDf, List.filter_eq_nil_iff]
    intro r _
    simp [rowMask, hl]
  · intro df s hst
    rw [filterDf, List.filter_eq_nil_iff]
    intro r _
    simp [rowMask, hst]

/-- A concrete row used to instantiate the filter theorems. -/
def rowA : Rec :=
  { lodgeName := some "Sossusvlei Lodge"
    lodgeCode := some "SOS"
    bookingRef := "B100"
    statusCode := "CF"
    arrivalDate := daysFromCivil 2023 6 15
    departureDate := daysFromCivil 2023 6 18
    dateBooked := daysFromCivil 2023 5 1
    totalAdults := 2
    totalChildren := 1
    unitType := some "Chalet"
    unitNumber := some "U1"
    nationality := some "NAM"
    totalGuests := 3 }

/-- Witness for `filter_semantics`: instantiating every conjunct at a
concrete dataframe and selection. -/
theorem filter_semantics_witness :
    (rowA ∈ filterDf [rowA]
        ⟨daysFromCivil 2023 6 1, daysFromCivil 2023 6 15,
          [some "Sossusvlei Lodge"], ["CF"]⟩)
    ∧ (rowA ∉ filterDf [rowA]
        ⟨daysFromCivil 2023 6 1, daysFromCivil 2023 6 14,
          [some "Sossusvlei Lodge"], ["CF"]⟩)
    ∧ filterDf [rowA] ⟨daysFromCivil 2023 6 1, daysFromCivil 2023 6 15, [], ["CF"]⟩ = []
    ∧ filterDf [rowA]
        ⟨daysFromCivil 2023 6 1, daysFromCivil 2023 6 15,
          [some "Sossusvlei Lodge"], []⟩ = [] := by
  refine ⟨?_, ?_, ?_, ?_⟩
  · exact filter_semantics.2.1 [rowA]
      ⟨daysFromCivil 2023 6 1, daysFromCivil 2023 6 15, [some "Sossusvlei Lodge"], ["CF"]⟩
      rowA (by decide) (by decide) (by decide) (by decide) (by decide)
  · exact filter_semantics.2.2.1 [rowA]
      ⟨daysFromCivil 2023 6 1, daysFromCivil 2023 6 14, [some "Sossusvlei Lodge"], ["CF"]⟩
      rowA (by decide)
  · exact filter_semantics.2.2.2.1 [rowA] _ rfl
  · exact filter_semantics.2.2.2.2 [rowA] _ rfl

/-- C2: on an empty filtered dataframe the aggregator yields
`total_bookings = 0`, `total_guests = 0`, the not-available marker
(pandas NaN, modelled `none`) for the average stay, the "N/A" string for
the top nationality, and empty bar-chart, pie-chart and trend mappings —
no computation raises. -/
theorem summarize_empty :
    total_bookings [] = 0 ∧ total_guests [] = 0 ∧ avg_stay [] = none ∧
      top_nat [] = Except.ok "N/A" ∧ lodge_counts [] = [] ∧
      nat_counts [] = [] ∧ trend_data [] = [] :=
  ⟨rfl, rfl, rfl, rfl, rfl, rfl, rfl⟩

/-- First unit-assignment row of booking "B1". -/
def rowB1a : Rec :=
  { lodgeName := some "Hardap Resort"
    lodgeCode := some "HAR"
    bookingRef := "B1"
    statusCode := "CF"
    arrivalDate := daysFromCivil 2023 7 2
    departureDate := daysFromCivil 2023 7 5
    dateBooked := daysFromCivil 2023 6 1
    totalAdults := 2
    totalChildren := 0
    unitType := some "Bungalow"
    unitNumber := some "U7"
    nationality := some "DEU"
    totalGuests := 2 }

/-- Second unit-assignment row of the same booking "B1" (same reference,
status and dates, different unit). -/
def rowB1b : Rec :=
  { rowB1a with unitNumber := some "U8" }

/-- C3: `total_bookings` counts distinct booking references, not rows:
for every filtered dataframe it equals the cardinality of the set of
`Booking Ref` values, and on a dataframe whose two rows are two unit
assignments of the one booking "B1" it is `1`, not the row count `2`. -/
theorem total_bookings_distinct_refs :
    (∀ df : Df, total_bookings df = (df.map (·.bookingRef)).toFinset.card)
    ∧ total_bookings [rowB1a, rowB1b] = 1
    ∧ [rowB1a, rowB1b].length = 2 := by
  refine ⟨fun df => ?_, by decide, rfl⟩
  rw [total_bookings, List.card_toFinset]

/-- A LEFT JOIN whose join key is NULL matches nothing and yields the
single NULL-extended row. -/
theorem leftJoin1_none {β : Type} (key : β → Option Nat) (tbl : List β) :
    leftJoin1 none key tbl = [none] := by
  have h : tbl.filter (fun b => nullEq none (key b)) = [] := by
    rw [List.filter_eq_nil_iff]
    intro b _
    cases key b <;> simp [nullEq]
  rw [leftJoin1, h]

/-- The WHERE clause is false whenever the department side of the join
is the NULL-extended row. -/
theorem whereClause_none (B : Bkmain) (C : Clmain) :
    whereClause B C none = false := by
  simp [whereClause]

/-- C4 (amended): the query joins bookings to guests with an INNER JOIN
and to unit, unit-type and department records with LEFT JOINs, but the
WHERE condition `D.record_marked_deleted = 0` is UNKNOWN (not true) on
the NULL-extended department row, so a booking lacking a unit assignment
contributes no row to the loaded Dataset even when it passes the
arrival-date and guest soft-delete filters. -/
theorem query_drops_unitless_bookings :
    ∀ (db : DB) (B : Bkmain), B.id_bkunit = none → perBooking db B = [] := by
  intro db B h
  rw [perBooking, h, leftJoin1_none]
  simp [leftJoin1_none, whereClause_none]

/-- A booking lacking a unit assignment, arriving 2023-06-15. -/
def bkC4 : Bkmain :=
  { booking_reference := "B500"
    booking_status := "CF"
    arrival_minute := 66506400
    departure_minute := 66510720
    creation_minute := 66000000
    adult_category_1_quantity := 1
    adult_category_2_quantity := 0
    child_category_1_quantity := 0
    child_category_2_quantity := 0
    guest_clmain := 11
    id_bkunit := none }

/-- The booking's guest, not soft-deleted. -/
def clC4 : Clmain :=
  { client_clmain := 11, client_nationality := some "NAM", record_marked_deleted := 0 }

/-- A database holding that booking, its guest, and a live department —
but no unit assignment for the booking. -/
def dbC4 : DB :=
  { bkmain := [bkC4]
    clmain := [clC4]
    bkunit := []
    bkunittp := []
    spdept := [{ department_spdept := 1, department_description := some "Hardap Resort",
                 department_code := some "HAR", record_marked_deleted := 0 }] }

/-- Counterexample to C4 as stated: `bkC4` lacks a unit assignment, its
guest is live and its decoded arrival date (2023-06-15) passes the
cutover filter, yet the loaded Dataset is empty — the booking does not
appear with null lodge/unit fields. -/
theorem unitless_booking_dropped_cex :
    bkC4.id_bkunit = none ∧ clC4.record_marked_deleted = 0 ∧
      daysFromCivil 2023 1 1 ≤ decodedDay bkC4.arrival_minute ∧
      queryRows dbC4 = [] := by
  refine ⟨rfl, rfl, by decide, by decide⟩

/-- Witness for `query_drops_unitless_bookings` at the concrete database. -/
theorem query_drops_unitless_bookings_witness :
    bkC4.id_bkunit = none ∧ perBooking dbC4 bkC4 = [] :=
  ⟨rfl, query_drops_unitless_bookings dbC4 bkC4 rfl⟩

/-- First unit-assignment row of booking "B1", arriving 2023-07-02. -/
def rowC5a : Rec :=
  { lodgeName := some "Waterberg Resort"
    lodgeCode := some "WAT"
    bookingRef := "B1"
    statusCode := "CF"
    arrivalDate := daysFromCivil 2023 7 2
    departureDate := daysFromCivil 2023 7 6
    dateBooked := daysFromCivil 2023 6 3
    totalAdults := 2
    totalChildren := 2
    unitType := some "Chalet"
    unitNumber := some "U3"
    nationality := some "ZAF"
    totalGuests := 4 }

/-- Second unit-assignment row of the same booking "B1". -/
def rowC5b : Rec :=
  { rowC5a with unitNumber := some "U4" }

/-- Booking "B1" split over two unit-assignment rows, both arriving in
July 2023. -/
def dfC5 : Df := [rowC5a, rowC5b]

/-- Counterexample to C5 as stated: `groupby('Month')['Booking Ref'].count()`
counts the two unit-assignment rows of the single booking "B1" as 2,
while only one distinct booking reference arrives that month. -/
theorem trend_double_counts_multiunit_cex :
    trend_data dfC5 = [(202307, 2)] ∧
      ((dfC5.filter (fun r => monthKey r.arrivalDate == 202307)).map
          (·.bookingRef)).dedup.length = 1 := by
  constructor <;> decide

/-- C5 (amended): `monthly_arrivals_trend` maps each year-month, in
sorted order, to the number of ROWS whose arrival falls in that month —
a booking spanning several unit-assignment rows is counted once per row,
not once per booking reference. -/
theorem trend_counts_rows :
    ∀ (df : Df) (k n : Nat),
      (k, n) ∈ trend_data df ↔
        ((∃ r ∈ df, monthKey r.arrivalDate = k) ∧
          n = df.countP (fun r => monthKey r.arrivalDate == k)) := by
  intro df k n
  rw [trend_data]
  constructor
  · intro h
    obtain ⟨a, ha, heq⟩ := List.mem_map.mp h
    obtain ⟨h1, h2⟩ := Prod.mk.injEq .. ▸ heq
    subst h1
    refine ⟨?_, h2.symm⟩
    rw [trendMonths, List.mem_insertionSort, List.mem_dedup] at ha
    obtain ⟨r, hr, hrk⟩ := List.mem_map.mp ha
    exact ⟨r, hr, hrk⟩
  · rintro ⟨⟨r, hr, hrk⟩, rfl⟩
    refine List.mem_map.mpr ⟨k, ?_, rfl⟩
    rw [trendMonths, List.mem_insertionSort, List.mem_dedup]
    exact List.mem_map.mpr ⟨r, hr, hrk⟩

/-- Witness for `trend_counts_rows` at the concrete two-row dataframe. -/
theorem trend_counts_rows_witness :
    (202307, 2) ∈ trend_data dfC5 :=
  (trend_counts_rows dfC5 202307 2).mpr ⟨⟨rowC5a, by decide, by decide⟩, by decide⟩

/-- A March 2023 arrival inserted before a January 2023 arrival. -/
def dfC6 : Df :=
  [{ rowA with bookingRef := "B10", arrivalDate := daysFromCivil 2023 3 4 },
   { rowA with bookingRef := "B11", arrivalDate := daysFromCivil 2023 1 20 }]

/-- C6: the key sequence of the monthly trend is sorted chronologically
whatever the order of the underlying rows — for every dataframe the
month keys of `trend_data` are ascending, and the dataframe holding a
March arrival before a January arrival of the same year still yields
January (202301) before March (202303). -/
theorem trend_months_sorted :
    (∀ df : Df, ((trend_data df).map Prod.fst).Sorted (· ≤ ·))
    ∧ (trend_data dfC6).map Prod.fst = [202301, 202303] := by
  constructor
  · intro df
    rw [trend_data, List.map_map]
    have h : (Prod.fst ∘ fun k => (k, df.countP (fun r => monthKey r.arrivalDate == k)))
        = id := rfl
    rw [h, List.map_id]
    exact List.sorted_insertionSort _ _
  · decide

/-- C7: the loader decodes a stored minute offset `m` to the calendar
date reached by adding `m` minutes to the epoch 1897-01-01T00:00 and
truncating to date granularity, i.e. the epoch day advanced by `m / 1440`
whole days; in particular the offset equal to the number of minutes
between 1897-01-01T00:00 and 2023-06-15T00:00 (which is 66 506 400)
decodes to 2023-06-15. -/
theorem minute_offset_decoding :
    (∀ mins : Nat, dateaddCastDate mins = civilFromDays (epochDay + mins / 1440))
    ∧ dateaddCastDate ((daysFromCivil 2023 6 15 - daysFromCivil 1897 1 1) * 1440)
        = (2023, 6, 15)
    ∧ (daysFromCivil 2023 6 15 - daysFromCivil 1897 1 1) * 1440 = 66506400
    ∧ dateaddCastDate 66506400 = (2023, 6, 15) := by
  refine ⟨fun mins => ?_, by decide, by decide, by decide⟩
  rw [dateaddCastDate]
  congr 1
  rw [Nat.mul_comm]
  exact Nat.mul_add_div (by norm_num) epochDay mins

/-- A row whose nationality is null. -/
def rowC8 : Rec :=
  { rowA with bookingRef := "B700", nationality := none }

/-- C8 evaluated at the failing input: on a nonempty filtered dataframe
all of whose nationality values are null, `Series.mode()` drops the
nulls and returns an empty series, so the index access
`mode()[0]` on line 114 raises a KeyError instead of returning a value —
the guard only covers the empty-dataframe case. -/
theorem top_nat_raises_on_all_null :
    [rowC8] ≠ [] ∧ (∀ r ∈ [rowC8], r.nationality = none) ∧
      top_nat [rowC8] = Except.error "KeyError: 0" :=
  ⟨by decide, by decide, rfl⟩

/-- C9 counterexample: the successful exit path of `load_data` opens the
connection and terminates without ever closing it. -/
theorem load_success_path_never_closes :
    LoadEvent.connOpen ∈ loadEvents false false ∧
      LoadEvent.connClose ∉ loadEvents false false := by
  decide

/-- C9 (amended): `load_data` opens a connection but closes it on no exit
path — neither on success nor when the query or the post-processing
raises; release is left to the runtime's garbage collection. -/
theorem load_opens_without_closing :
    ∀ q d : Bool,
      LoadEvent.connOpen ∈ loadEvents q d ∧ LoadEvent.connClose ∉ loadEvents q d := by
  decide

/-- The fold underlying `minArrival` is a lower bound for its start and
for every element folded over. -/
theorem foldl_minArr_le (l : List Rec) (a : Nat) :
    l.foldl (fun acc x => min acc x.arrivalDate) a ≤ a ∧
      ∀ x ∈ l, l.foldl (fun acc x => min acc x.arrivalDate) a ≤ x.arrivalDate := by
  induction l generalizing a with
  | nil => exact ⟨le_refl a, by simp⟩
  | cons b bs ih =>
    refine ⟨le_trans (ih (min a b.arrivalDate)).1 (min_le_left _ _), ?_⟩
    intro x hx
    rcases List.mem_cons.mp hx with h | h
    · subst h
      exact le_trans (ih (min a x.arrivalDate)).1 (min_le_right _ _)
    · exact (ih (min a b.arrivalDate)).2 x h

/-- The fold underlying `maxArrival` is an upper bound for its start and
for every element folded over. -/
theorem le_foldl_maxArr (l : List Rec) (a : Nat) :
    a ≤ l.foldl (fun acc x => max acc x.arrivalDate) a ∧
      ∀ x ∈ l, x.arrivalDate ≤ l.foldl (fun acc x => max acc x.arrivalDate) a := by
  induction l generalizing a with
  | nil => exact ⟨le_refl a, by simp⟩
  | cons b bs ih =>
    refine ⟨le_trans (le_max_left _ _) (ih (max a b.arrivalDate)).1, ?_⟩
    intro x hx
    rcases List.mem_cons.mp hx with h | h
    · subst h
      exact le_trans (le_max_right _ _) (ih (max a x.arrivalDate)).1
    · exact (ih (max a b.arrivalDate)).2 x h

/-- `min_date` bounds every arrival date of a nonempty dataframe from
below. -/
theorem minArrival_le {df : Df} {r : Rec} (h : r ∈ df) :
    minArrival df ≤ r.arrivalDate := by
  cases df with
  | nil => cases h
  | cons r0 rs =>
    rw [minArrival]
    rcases List.mem_cons.mp h with h0 | h0
    · subst h0
      exact (foldl_minArr_le rs r.arrivalDate).1
    · exact (foldl_minArr_le rs r0.arrivalDate).2 r h0

/-- `max_date` bounds every arrival date of a nonempty dataframe from
above. -/
theorem le_maxArrival {df : Df} {r : Rec} (h : r ∈ df) :
    r.arrivalDate ≤ maxArrival df := by
  cases df with
  | nil => cases h
  | cons r0 rs =>
    rw [maxArrival]
    rcases List.mem_cons.mp h with h0 | h0
    · subst h0
      exact (le_foldl_maxArr rs r.arrivalDate).1
    · exact (le_foldl_maxArr rs r0.arrivalDate).2 r h0

/-- C10: filtering with the dashboard's default selection — date range
`[min arrival, max arrival]`, every distinct lodge value selected, every
distinct status value selected — passes every row, so `filter` is the
identity on any nonempty dataframe. -/
theorem default_selection_identity :
    ∀ df : Df, df ≠ [] → filterDf df (defaultSelection df) = df := by
  intro df _
  rw [filterDf, List.filter_eq_self]
  intro r hr
  rw [rowMask]
  simp only [defaultSelection, Bool.and_eq_true, decide_eq_true_iff]
  refine ⟨⟨⟨minArrival_le hr, le_maxArrival hr⟩, ?_⟩, ?_⟩
  · have hm : r.lodgeName ∈ lodgeList df := by
      rw [lodgeList, List.mem_dedup]
      exact List.mem_map.mpr ⟨r, hr, rfl⟩
    simpa using hm
  · have hm : r.statusCode ∈ statusList df := by
      rw [statusList, List.mem_dedup]
      exact List.mem_map.mpr ⟨r, hr, rfl⟩
    simpa using hm

/-- Witness for `default_selection_identity` at a one-row dataframe. -/
theorem default_selection_identity_witness :
    filterDf [rowA] (defaultSelection [rowA]) = [rowA] :=
  default_selection_identity [rowA] (by decide)

end NWR








